import Mathlib

/-!
# Verification of the discordjs/github-bot webhook responder

A shallow embedding of `src/app.ts` (and the earlier variant in
`src/unnamed/part_000`, whose `isPRGreen` is identical): the green-check
evaluator `isPRGreen`, the comment-trigger handler `commentHandler` and the
workflow-completion handler `workflowRunHandler`.  Outbound API calls and
key-value store operations are recorded as an explicit `Effect` trace;
the environment (API responses, store contents) is passed in as data.
Timestamps are milliseconds since the Unix epoch (`new Date(null)` is the
epoch, i.e. `0`).
-/

set_option maxRecDepth 100000

namespace GithubBot

/-- A check run as consumed by `isPRGreen`: `name`, `status`
(`queued` / `in_progress` / `completed`), optional `conclusion`, and
`completed_at` as an optional timestamp in milliseconds since the epoch
(`none` models the JSON `null` of a run that has not completed). -/
structure CheckRun where
  name : String
  status : String
  conclusion : Option String
  completed_at : Option Nat
deriving DecidableEq, Repr

/-- `new Date(run.completed_at!)`: a `null` timestamp becomes the Unix
epoch (`new Date(null)` is time `0`). -/
def runDate (r : CheckRun) : Nat :=
  r.completed_at.getD 0

/-- One step of the `reduce` in `isPRGreen`: the accumulator is the
`Record<string, CheckRun>` as an insertion-ordered association list.
`latest[run.name] = run` on a fresh name appends; on an existing name it
replaces in place, and only when `new Date(run.completed_at!) >
new Date(latest[run.name]!.completed_at!)` holds strictly. -/
def insertLatest (latest : List (String × CheckRun)) (run : CheckRun) :
    List (String × CheckRun) :=
  match latest.lookup run.name with
  | none => latest ++ [(run.name, run)]
  | some kept =>
    if runDate run > runDate kept then
      latest.map (fun e => if e.1 = run.name then (run.name, run) else e)
    else latest

/-- `checkRunsData.check_runs.reduce(..., {})`: group check runs by name,
keeping only the latest run for each check. -/
def latestCheckRuns (runs : List CheckRun) : List (String × CheckRun) :=
  runs.foldl insertLatest []

/-- The filter predicate of `failedChecks`: status is `completed` and the
conclusion is none of `success`, `neutral`, `skipped`. -/
def isFailedCheck (run : CheckRun) : Bool :=
  run.status == "completed" && run.conclusion != some "success" &&
    run.conclusion != some "neutral" && run.conclusion != some "skipped"

/-- `Object.values(latestCheckRuns).filter(...)`. -/
def failedChecks (runs : List CheckRun) : List CheckRun :=
  ((latestCheckRuns runs).map Prod.snd).filter isFailedCheck

/-- The pure core of `isPRGreen`: the combined commit-status `state` and the
check-run list are the two fetched inputs; the result is
`statusData.state === 'success' && failedChecks.length === 0`. -/
def isPRGreen (state : String) (runs : List CheckRun) : Bool :=
  state == "success" && (failedChecks runs).length == 0

/-- Specification-side single-name step: keep the run with the more recent
completion timestamp, ties keeping the run already kept (the one
encountered first). -/
def updLatest (acc : Option CheckRun) (run : CheckRun) : Option CheckRun :=
  match acc with
  | none => some run
  | some kept => if runDate run > runDate kept then some run else some kept

/-- Specification-side reduction: for one check `name`, the latest run by
most-recent completion timestamp among the runs of that name, ties keeping
the first-encountered run. -/
def latestByName (runs : List CheckRun) (name : String) : Option CheckRun :=
  (runs.filter (fun r => r.name == name)).foldl updLatest none

/-- The persisted correlation record (`PackInfo` in `util.ts`). -/
structure PackInfo where
  commentId : Nat
  prNumber : Nat
  tag : String
  workflowRunId : Nat
deriving DecidableEq, Repr

/-- A value held by the `PACK_STORAGE` key-value store: either valid JSON
encoding a `PackInfo` (what `JSON.stringify(packInfo)` writes) or a string
that is not valid JSON, on which `JSON.parse` throws. -/
inductive StoredValue where
  | json (info : PackInfo)
  | invalid (raw : String)
deriving DecidableEq, Repr

/-- `JSON.parse(stored)` destructured as a `PackInfo`; `none` models the
thrown `SyntaxError` on a value that is not valid JSON. -/
def parsePackInfo : StoredValue → Option PackInfo
  | .json info => some info
  | .invalid _ => none

/-- JS truthiness of the fetched `string | null` at `if (!stored)`: the
key being absent gives `null`, and a present empty string is falsy too, so
both take the silent no-record branch. -/
def storedTruthy : StoredValue → Bool
  | .json _ => true
  | .invalid raw => raw != ""

/-- `PACK_STORAGE.put(key, value)`: last-writer-wins overwrite. -/
def kvPut (store : List (String × StoredValue)) (key : String)
    (v : StoredValue) : List (String × StoredValue) :=
  store.filter (fun e => e.1 != key) ++ [(key, v)]

/-- `PACK_STORAGE.delete(key)`. -/
def kvDelete (store : List (String × StoredValue)) (key : String) :
    List (String × StoredValue) :=
  store.filter (fun e => e.1 != key)

/-- An outbound API call or store operation made by a handler, recorded in
order.  Diagnostic logging is not an outbound call and is not recorded. -/
inductive Effect where
  | getPull (owner repo : String) (pull_number : Nat)
  | getCombinedStatus (owner repo ref : String)
  | listCheckRuns (owner repo ref : String)
  | getCollaboratorPermission (owner repo username : String)
  | createReaction (owner repo : String) (comment_id : Nat) (content : String)
  | createWorkflowDispatch (owner repo workflow_id ref inputRef inputTag dryRun : String)
  | listWorkflowRuns (owner repo workflow_id : String) (per_page : Nat)
  | storePut (key : String) (value : StoredValue) (expirationTtl : Nat)
  | getAuthenticated
  | storeGet (key : String)
  | storeDelete (key : String)
  | createComment (owner repo : String) (issue_number : Nat) (body : String)
  | listReactions (owner repo : String) (comment_id : Nat)
  | deleteReaction (owner repo : String) (reaction_id comment_id : Nat)
deriving DecidableEq, Repr

/-- `comment.body.startsWith('@discord-js-bot pack this')`: the literal,
case-sensitive, untrimmed prefix test, expressed on the character data of
the two strings. -/
def strStartsWith (s pre : String) : Bool :=
  pre.data.isPrefixOf s.data

/-- The slice of an `issue_comment.created` / `issue_comment.edited` payload
read by `commentHandler`.  `user` is the comment author's login
(`none` when the comment has no associated user); `is_pull_request` is
the presence of `issue.pull_request`. -/
structure CommentPayload where
  body : String
  user : Option String
  is_pull_request : Bool
  issue_state : String
  issue_number : Nat
  comment_id : Nat
  repo_owner : String
  repo_name : String
deriving DecidableEq, Repr

/-- A workflow run as returned by `actions.listWorkflowRuns`. -/
structure WorkflowRunItem where
  id : Nat
  event : String
  status : String
deriving DecidableEq, Repr

/-- The environment answering the comment handler's outbound calls: the
collaborator permission level, the pull request's head SHA, the combined
commit-status state, the check runs for that SHA, the page of recent
workflow runs, and the current store contents. -/
structure CHEnv where
  permission : String
  prHeadSha : String
  combinedStatus : String
  checkRuns : List CheckRun
  workflowRuns : List WorkflowRunItem
  store : List (String × StoredValue)
deriving DecidableEq, Repr

/-- What a run of `commentHandler` did: the ordered trace of outbound calls
and store operations, and the store contents afterwards. -/
structure CHOutcome where
  effects : List Effect
  store : List (String × StoredValue)
deriving DecidableEq, Repr

/-- `commentHandler` from `app.ts`: gate on the trigger phrase, the comment
author, pull-request-and-open, collaborator permission, and `isPRGreen`;
then react with `eyes`, dispatch `publish-dev.yml`, wait, list recent runs,
and persist the correlation record if the dispatched run is found. -/
def commentHandler (env : CHEnv) (p : CommentPayload) : CHOutcome :=
  if !(strStartsWith p.body "@discord-js-bot pack this") then ⟨[], env.store⟩ else
  match p.user with
  | none => ⟨[], env.store⟩
  | some username =>
    if !p.is_pull_request || p.issue_state != "open" then ⟨[], env.store⟩ else
    let e1 := [Effect.getCollaboratorPermission p.repo_owner p.repo_name username]
    if env.permission != "admin" && env.permission != "write" then ⟨e1, env.store⟩ else
    let e2 := e1 ++
      [Effect.getPull p.repo_owner p.repo_name p.issue_number,
       Effect.getCombinedStatus p.repo_owner p.repo_name env.prHeadSha,
       Effect.listCheckRuns p.repo_owner p.repo_name env.prHeadSha]
    if !isPRGreen env.combinedStatus env.checkRuns then ⟨e2, env.store⟩ else
    let ref := "refs/pull/" ++ toString p.issue_number ++ "/head"
    let tag := "pr-" ++ toString p.issue_number
    let e3 := e2 ++
      [Effect.createReaction p.repo_owner p.repo_name p.comment_id "eyes",
       Effect.createWorkflowDispatch "discordjs" "discord.js" "publish-dev.yml"
         "main" ref tag "false",
       Effect.listWorkflowRuns "discordjs" "discord.js" "publish-dev.yml" 5]
    match env.workflowRuns.find?
        (fun r => r.event == "workflow_dispatch" && r.status != "completed") with
    | none => ⟨e3, env.store⟩
    | some run =>
      let info : PackInfo :=
        ⟨p.comment_id, p.issue_number, tag, run.id⟩
      let key := "pack-" ++ toString run.id
      ⟨e3 ++ [Effect.storePut key (StoredValue.json info) 3600],
       kvPut env.store key (StoredValue.json info)⟩

/-- The slice of a `workflow_run.completed` payload read by
`workflowRunHandler`.  `triggering_actor` is the optional actor login
(`triggering_actor?.login`). -/
structure WorkflowRunPayload where
  name : String
  event : String
  conclusion : Option String
  id : Nat
  triggering_actor : Option String
  repo_owner : String
  repo_name : String
deriving DecidableEq, Repr

/-- A reaction as returned by `reactions.listForIssueComment`. -/
structure Reaction where
  id : Nat
  content : String
deriving DecidableEq, Repr

/-- The environment answering the completion handler's outbound calls: the
App's own slug (`apps.getAuthenticated`), the store contents, the reactions
on the stored comment, and whether `issues.createComment` fails. -/
structure WREnv where
  appSlug : String
  store : List (String × StoredValue)
  reactions : List Reaction
  commentPostFails : Bool
deriving DecidableEq, Repr

/-- What a run of `workflowRunHandler` did: the ordered trace, the store
afterwards, whether an exception propagated out of the handler, and whether
the handler logged at error level (`logger.error` in the `catch`). -/
structure WROutcome where
  effects : List Effect
  store : List (String × StoredValue)
  threw : Bool
  loggedError : Bool
deriving DecidableEq, Repr

/-- The body of the result comment:
`📦 Packages from this PR have been published with the tag ...`. -/
def commentBody (tag : String) : String :=
  "📦 Packages from this PR have been published with the tag `" ++ tag ++
    "`.\n\nFor discord.js using npm:\n```bash\nnpm install discord.js@" ++
    tag ++ "\n```"

/-- `workflowRunHandler` from `app.ts`: gate on workflow name, trigger
event, conclusion, and triggering actor; look up the correlation record,
returning silently when `if (!stored)` holds (key absent, or a present
but falsy empty string); otherwise parse and consume the record, post the
result comment and best-effort remove the `eyes` reaction from the stored
comment. -/
def workflowRunHandler (env : WREnv) (p : WorkflowRunPayload) : WROutcome :=
  if p.name != "Publish dev" then ⟨[], env.store, false, false⟩ else
  if p.event != "workflow_dispatch" then ⟨[], env.store, false, false⟩ else
  if p.conclusion != some "success" then ⟨[], env.store, false, false⟩ else
  let e1 := [Effect.getAuthenticated]
  if p.triggering_actor != some (env.appSlug ++ "[bot]") then
    ⟨e1, env.store, false, false⟩ else
  let packKey := "pack-" ++ toString p.id
  let e2 := e1 ++ [Effect.storeGet packKey]
  match env.store.lookup packKey with
  | none => ⟨e2, env.store, false, false⟩
  | some stored =>
    if !(storedTruthy stored) then ⟨e2, env.store, false, false⟩ else
    match parsePackInfo stored with
    | none => ⟨e2, env.store, true, false⟩
    | some info =>
      let store2 := kvDelete env.store packKey
      let e3 := e2 ++ [Effect.storeDelete packKey]
      let e4 := e3 ++
        [Effect.createComment p.repo_owner p.repo_name info.prNumber
          (commentBody info.tag)]
      if env.commentPostFails then ⟨e4, store2, false, true⟩ else
      let e5 := e4 ++
        [Effect.listReactions p.repo_owner p.repo_name info.commentId]
      match env.reactions.find? (fun r => r.content == "eyes") with
      | some eyes =>
        ⟨e5 ++ [Effect.deleteReaction p.repo_owner p.repo_name eyes.id
            info.commentId],
         store2, false, false⟩
      | none => ⟨e5, store2, false, false⟩

/-- The invariant of the `reduce` accumulator: keys are distinct and each
entry is keyed by its run's name. -/
def goodAList (l : List (String × CheckRun)) : Prop :=
  (l.map Prod.fst).Nodup ∧ ∀ e ∈ l, e.1 = e.2.name

/-- Classifier: is this effect a `createWorkflowDispatch` call? -/
def isDispatchEffect : Effect → Bool
  | .createWorkflowDispatch .. => true
  | _ => false

/-- Classifier: is this effect an `issues.createComment` call? -/
def isCommentEffect : Effect → Bool
  | .createComment .. => true
  | _ => false

/-- Classifier: is this effect a `PACK_STORAGE.put`? -/
def isStorePutEffect : Effect → Bool
  | .storePut .. => true
  | _ => false

/-- Classifier: is this effect a `PACK_STORAGE.delete`? -/
def isStoreDeleteEffect : Effect → Bool
  | .storeDelete .. => true
  | _ => false

end GithubBot


namespace GithubBot

theorem lookup_append {α : Type _} {β : Type _} [BEq α] (l₁ l₂ : List (α × β)) (a : α) :
    (l₁ ++ l₂).lookup a = (l₁.lookup a).or (l₂.lookup a) := by
  induction l₁ with
  | nil => simp [List.lookup]
  | cons e l ih =>
    obtain ⟨k, v⟩ := e
    rw [List.cons_append, List.lookup_cons, List.lookup_cons]
    cases h : a == k
    · simp [ih]
    · simp

theorem lookup_mem {α : Type _} {β : Type _} [BEq α] [LawfulBEq α]
    {l : List (α × β)} {a : α} {b : β} (h : l.lookup a = some b) : (a, b) ∈ l := by
  induction l with
  | nil => simp [List.lookup] at h
  | cons e l ih =>
    obtain ⟨k, v⟩ := e
    rw [List.lookup_cons] at h
    cases hk : a == k
    · rw [hk] at h
      exact List.mem_cons_of_mem _ (ih h)
    · rw [hk] at h
      obtain rfl : v = b := by simpa using h
      obtain rfl : a = k := eq_of_beq hk
      exact List.mem_cons_self _ _

theorem lookup_none_not_mem_keys {α : Type _} {β : Type _} [BEq α] [LawfulBEq α]
    {l : List (α × β)} {a : α} (h : l.lookup a = none) : a ∉ l.map Prod.fst := by
  induction l with
  | nil => simp
  | cons e l ih =>
    obtain ⟨k, v⟩ := e
    rw [List.lookup_cons] at h
    cases hk : a == k
    · rw [hk] at h
      have hak : a ≠ k := fun he => by simp [he] at hk
      simp only [List.map_cons, List.mem_cons]
      exact fun hc => hc.elim hak (ih h)
    · rw [hk] at h
      exact absurd h (by simp)

end GithubBot

namespace GithubBot

theorem lookup_of_mem_nodup {α : Type _} {β : Type _} [BEq α] [LawfulBEq α]
    {l : List (α × β)} (hnd : (l.map Prod.fst).Nodup) {a : α} {b : β}
    (hm : (a, b) ∈ l) : l.lookup a = some b := by
  induction l with
  | nil => simp at hm
  | cons e l ih =>
    obtain ⟨k, v⟩ := e
    rw [List.map_cons, List.nodup_cons] at hnd
    rcases List.mem_cons.1 hm with he | hl
    · obtain ⟨rfl, rfl⟩ : a = k ∧ b = v := by simpa using he
      simp [List.lookup_cons]
    · have hak : a ≠ k := by
        rintro rfl
        exact hnd.1 (List.mem_map.2 ⟨(a, b), hl, rfl⟩)
      rw [List.lookup_cons]
      have : (a == k) = false := beq_false_of_ne hak
      rw [this]
      exact ih hnd.2 hl

theorem lookup_map_replace (acc : List (String × CheckRun)) (k : String)
    (v : CheckRun) (name : String) :
    (acc.map (fun e => if e.1 = k then (k, v) else e)).lookup name =
      if k = name then Option.map (fun _ => v) (acc.lookup name)
      else acc.lookup name := by
  induction acc with
  | nil => by_cases h : k = name <;> simp [List.lookup, h]
  | cons e l ih =>
    obtain ⟨k1, v1⟩ := e
    simp only [List.map_cons]
    by_cases h1 : k1 = k
    · subst h1
      by_cases h2 : k1 = name
      · subst h2
        simp [List.lookup_cons, ih]
      · have hb : (name == k1) = false := beq_false_of_ne (Ne.symm h2)
        simp [List.lookup_cons, hb, ih]
    · by_cases h2 : k1 = name
      · subst h2
        have hk : k ≠ k1 := fun he => h1 he.symm
        simp [List.lookup_cons, if_neg h1, hk]
      · have hb : (name == k1) = false := beq_false_of_ne (Ne.symm h2)
        simp [List.lookup_cons, if_neg h1, hb, ih]

theorem lookup_insertLatest (acc : List (String × CheckRun)) (run : CheckRun)
    (name : String) :
    (insertLatest acc run).lookup name =
      if run.name = name then updLatest (acc.lookup name) run
      else acc.lookup name := by
  unfold insertLatest
  split
  · rename_i hk
    rw [lookup_append]
    by_cases hn : run.name = name
    · subst hn
      rw [hk]
      simp [List.lookup, updLatest]
    · have hb : (name == run.name) = false := beq_false_of_ne (Ne.symm hn)
      simp [List.lookup, hb, if_neg hn]
  · rename_i kept hk
    by_cases hd : runDate run > runDate kept
    · rw [if_pos hd, lookup_map_replace]
      by_cases hn : run.name = name
      · subst hn
        rw [if_pos rfl, hk]
        simp [updLatest, if_pos hd]
      · rw [if_neg hn, if_neg hn]
    · rw [if_neg hd]
      by_cases hn : run.name = name
      · subst hn
        rw [if_pos rfl, hk]
        simp [updLatest, if_neg hd]
      · rw [if_neg hn]

theorem lookup_foldl (runs : List CheckRun) (acc : List (String × CheckRun))
    (name : String) :
    (runs.foldl insertLatest acc).lookup name =
      (runs.filter (fun r => r.name == name)).foldl updLatest (acc.lookup name) := by
  induction runs generalizing acc with
  | nil => simp
  | cons run runs ih =>
    rw [List.foldl_cons, ih, List.filter_cons]
    by_cases h : run.name = name
    · simp [h, lookup_insertLatest]
    · have hb : (run.name == name) = false := beq_false_of_ne h
      simp [hb, lookup_insertLatest, if_neg h]

theorem lookup_latestCheckRuns (runs : List CheckRun) (name : String) :
    (latestCheckRuns runs).lookup name = latestByName runs name := by
  rw [latestCheckRuns, lookup_foldl]
  rfl

end GithubBot

namespace GithubBot

theorem goodAList_insertLatest {l : List (String × CheckRun)}
    (h : goodAList l) (run : CheckRun) : goodAList (insertLatest l run) := by
  obtain ⟨hnd, hkey⟩ := h
  unfold insertLatest
  split
  · rename_i hk
    constructor
    · rw [List.map_append, List.nodup_append]
      refine ⟨hnd, List.nodup_singleton _, ?_⟩
      intro a ha hb
      simp at hb
      subst hb
      exact lookup_none_not_mem_keys hk ha
    · intro e he
      rcases List.mem_append.1 he with hl | hr
      · exact hkey e hl
      · simp at hr
        subst hr
        rfl
  · rename_i kept hk
    split
    · constructor
      · have hkeys : (l.map (fun e => if e.1 = run.name then (run.name, run) else e)).map Prod.fst
            = l.map Prod.fst := by
          rw [List.map_map]
          refine List.map_congr_left ?_
          intro e _
          by_cases he : e.1 = run.name
          · simp [he]
          · simp [he]
        rw [hkeys]
        exact hnd
      · intro e he
        rcases List.mem_map.1 he with ⟨e0, he0, heq⟩
        by_cases h0 : e0.1 = run.name
        · rw [if_pos h0] at heq
          subst heq
          rfl
        · rw [if_neg h0] at heq
          subst heq
          exact hkey e0 he0
    · exact ⟨hnd, hkey⟩

theorem goodAList_latestCheckRuns (runs : List CheckRun) :
    goodAList (latestCheckRuns runs) := by
  have hgen : ∀ (rs : List CheckRun) (acc : List (String × CheckRun)),
      goodAList acc → goodAList (rs.foldl insertLatest acc) := by
    intro rs
    induction rs with
    | nil => intro acc h; exact h
    | cons r rs ih =>
      intro acc h
      exact ih _ (goodAList_insertLatest h r)
  exact hgen runs [] ⟨List.nodup_nil, by simp⟩

end GithubBot

namespace GithubBot

/-- C1: `isPRGreen` returns `true` iff the combined status state equals
`success` and, after reducing the check runs to one latest run per distinct
name by most-recent completion timestamp (ties keeping the
first-encountered run), no kept run has status `completed` with a
conclusion outside success/neutral/skipped; it returns `false` otherwise,
including when the combined state is `pending`, `failure` or `error`. -/
theorem isPRGreen_latest_per_name (state : String) (runs : List CheckRun) :
    isPRGreen state runs = true ↔
      state = "success" ∧
        ∀ name r, latestByName runs name = some r → isFailedCheck r = false := by
  have hfail : (((failedChecks runs).length == 0) = true) ↔
      ∀ name r, latestByName runs name = some r → isFailedCheck r = false := by
    rw [beq_iff_eq, List.length_eq_zero]
    unfold failedChecks
    rw [List.filter_eq_nil_iff]
    constructor
    · intro hall name r hr
      rw [← lookup_latestCheckRuns] at hr
      have hmem : r ∈ (latestCheckRuns runs).map Prod.snd :=
        List.mem_map.2 ⟨(name, r), lookup_mem hr, rfl⟩
      exact Bool.eq_false_iff.2 (hall r hmem)
    · intro hall r hmem
      obtain ⟨e, he, rfl⟩ := List.mem_map.1 hmem
      obtain ⟨hnd, hkey⟩ := goodAList_latestCheckRuns runs
      have hm2 : (e.2.name, e.2) ∈ latestCheckRuns runs := by
        rw [← hkey e he]
        simpa using he
      have hl : latestByName runs e.2.name = some e.2 := by
        rw [← lookup_latestCheckRuns]
        exact lookup_of_mem_nodup hnd hm2
      exact Bool.eq_false_iff.1 (hall e.2.name e.2 hl)
  unfold isPRGreen
  rw [Bool.and_eq_true, beq_iff_eq, hfail]

end GithubBot

namespace GithubBot

theorem lookup_kvDelete (s : List (String × StoredValue)) (k : String) :
    (kvDelete s k).lookup k = none := by
  induction s with
  | nil => rfl
  | cons e l ih =>
    obtain ⟨k1, v1⟩ := e
    by_cases h : k1 = k
    · simp [kvDelete, h] at ih ⊢
      exact ih
    · have hb : (k == k1) = false := beq_false_of_ne (Ne.symm h)
      have hb2 : (k1 != k) = true := by simp [bne, beq_false_of_ne h]
      simp only [kvDelete, List.filter_cons, hb2, if_pos] at ih ⊢
      rw [List.lookup_cons, hb]
      exact ih

theorem lookup_kvPut (s : List (String × StoredValue)) (k : String)
    (v : StoredValue) : (kvPut s k v).lookup k = some v := by
  unfold kvPut
  rw [lookup_append]
  have h1 : (List.filter (fun e => e.1 != k) s).lookup k = none :=
    lookup_kvDelete s k
  rw [h1]
  simp [List.lookup]

end GithubBot

namespace GithubBot

/-- C10: a check run whose `completed_at` is null is ordered as the Unix
epoch, so an in-progress or queued run never replaces an already-kept run
of the same name, and a kept completed run stays the latest even when a
re-run of that check is still in progress. -/
theorem nullCompleted_is_epoch_and_never_replaces :
    (∀ r : CheckRun, r.completed_at = none → runDate r = 0) ∧
    (∀ (latest : List (String × CheckRun)) (run kept : CheckRun),
      latest.lookup run.name = some kept → run.completed_at = none →
      insertLatest latest run = latest) ∧
    (∀ kept run : CheckRun, run.completed_at = none →
      updLatest (some kept) run = some kept) ∧
    (∀ kept run : CheckRun, run.completed_at = none → run.name = kept.name →
      latestByName [kept, run] kept.name = some kept) := by
  refine ⟨?_, ?_, ?_, ?_⟩
  · intro r h
    simp [runDate, h]
  · intro latest run kept hk hnull
    simp [insertLatest, hk, runDate, hnull]
  · intro kept run hnull
    simp [updLatest, runDate, hnull]
  · intro kept run hnull hname
    simp [latestByName, hname, updLatest, runDate, hnull]

end GithubBot

namespace GithubBot

/-- C8: a comment whose body does not start with the exact, case-sensitive,
untrimmed trigger prefix `@discord-js-bot pack this` produces a return
with no outbound API call and no store write. -/
theorem commentHandler_no_trigger_no_calls (env : CHEnv) (p : CommentPayload)
    (h : strStartsWith p.body "@discord-js-bot pack this" = false) :
    commentHandler env p = ⟨[], env.store⟩ := by
  simp [commentHandler, h]

/-- C3: the comment-trigger handler dispatches the release workflow iff
all gates hold: the body starts with the trigger prefix, the comment has
an author, the parent issue is an open pull request, the author's
permission is admin or write, and `isPRGreen` returns true; a failing gate
produces a silent return with no dispatch. -/
theorem commentHandler_dispatch_iff (env : CHEnv) (p : CommentPayload) :
    (commentHandler env p).effects.any isDispatchEffect = true ↔
      (strStartsWith p.body "@discord-js-bot pack this" = true ∧
        p.user.isSome = true ∧
        p.is_pull_request = true ∧
        p.issue_state = "open" ∧
        (env.permission = "admin" ∨ env.permission = "write") ∧
        isPRGreen env.combinedStatus env.checkRuns = true) := by
  unfold commentHandler
  cases hb : strStartsWith p.body "@discord-js-bot pack this"
  · simp
  · cases hu : p.user with
    | none => simp
    | some u =>
      cases hpr : p.is_pull_request
      · simp
      · by_cases hst : p.issue_state = "open"
        · by_cases ha : env.permission = "admin"
          · cases hg : isPRGreen env.combinedStatus env.checkRuns
            · simp [hst, ha, hg, isDispatchEffect]
            · cases hf : env.workflowRuns.find?
                  (fun r => r.event == "workflow_dispatch" && r.status != "completed") with
              | none => simp [hst, ha, hg, hf, isDispatchEffect]
              | some run => simp [hst, ha, hg, hf, isDispatchEffect]
          · by_cases hw : env.permission = "write"
            · cases hg : isPRGreen env.combinedStatus env.checkRuns
              · simp [hst, ha, hw, hg, isDispatchEffect]
              · cases hf : env.workflowRuns.find?
                    (fun r => r.event == "workflow_dispatch" && r.status != "completed") with
                | none => simp [hst, ha, hw, hg, hf, isDispatchEffect]
                | some run => simp [hst, ha, hw, hg, hf, isDispatchEffect]
            · simp [hst, ha, hw, isDispatchEffect]
        · simp [hst]

end GithubBot

namespace GithubBot

/-- C4: for a trigger that passes all gates, if a run with event
`workflow_dispatch` and status not `completed` is found among the listed
recent runs, exactly one correlation record is written under key
`pack-<runId>` containing the pull request number, comment id, tag
`pr-<prNumber>` and the run id, with expiration TTL 3600; if no such run
is found, no correlation record is written. -/
theorem commentHandler_correlation_record (env : CHEnv) (p : CommentPayload)
    (username : String)
    (hb : strStartsWith p.body "@discord-js-bot pack this" = true)
    (hu : p.user = some username)
    (hpr : p.is_pull_request = true)
    (hst : p.issue_state = "open")
    (hperm : env.permission = "admin" ∨ env.permission = "write")
    (hg : isPRGreen env.combinedStatus env.checkRuns = true) :
    (∀ run, env.workflowRuns.find?
        (fun r => r.event == "workflow_dispatch" && r.status != "completed") =
          some run →
      (commentHandler env p).effects.filter isStorePutEffect =
        [Effect.storePut ("pack-" ++ toString run.id)
          (StoredValue.json
            ⟨p.comment_id, p.issue_number, "pr-" ++ toString p.issue_number,
              run.id⟩) 3600] ∧
      (commentHandler env p).store.lookup ("pack-" ++ toString run.id) =
        some (StoredValue.json
          ⟨p.comment_id, p.issue_number, "pr-" ++ toString p.issue_number,
            run.id⟩)) ∧
    (env.workflowRuns.find?
        (fun r => r.event == "workflow_dispatch" && r.status != "completed") =
          none →
      (commentHandler env p).effects.filter isStorePutEffect = [] ∧
      (commentHandler env p).store = env.store) := by
  constructor
  · intro run hf
    rcases hperm with ha | ha <;>
      simp [commentHandler, hb, hu, hpr, hst, ha, hg, hf, isStorePutEffect,
        lookup_kvPut]
  · intro hf
    rcases hperm with ha | ha <;>
      simp [commentHandler, hb, hu, hpr, hst, ha, hg, hf, isStorePutEffect]

end GithubBot

namespace GithubBot

/-- C2: for a workflow-run-completed event whose record is in the store
and whose name, event, conclusion and triggering actor all pass the gates,
the handler deletes the record, posts exactly one comment on the stored
pull request number with a body containing the stored tag, and removes an
`eyes` reaction (if one is present) from the stored comment id. -/
theorem workflowRun_success_finalizes (env : WREnv) (p : WorkflowRunPayload)
    (info : PackInfo)
    (hname : p.name = "Publish dev")
    (hevent : p.event = "workflow_dispatch")
    (hconc : p.conclusion = some "success")
    (hactor : p.triggering_actor = some (env.appSlug ++ "[bot]"))
    (hstore : env.store.lookup ("pack-" ++ toString p.id) =
      some (StoredValue.json info))
    (hpost : env.commentPostFails = false) :
    (workflowRunHandler env p).store.lookup ("pack-" ++ toString p.id) = none ∧
    (workflowRunHandler env p).effects.filter isCommentEffect =
      [Effect.createComment p.repo_owner p.repo_name info.prNumber
        (commentBody info.tag)] ∧
    (∃ pre post, commentBody info.tag = pre ++ (info.tag ++ post)) ∧
    (∀ eyes, env.reactions.find? (fun r => r.content == "eyes") = some eyes →
      Effect.deleteReaction p.repo_owner p.repo_name eyes.id info.commentId ∈
        (workflowRunHandler env p).effects) := by
  have hbody : ∃ pre post, commentBody info.tag = pre ++ (info.tag ++ post) :=
    ⟨"📦 Packages from this PR have been published with the tag `",
      "`.\n\nFor discord.js using npm:\n```bash\nnpm install discord.js@" ++
        info.tag ++ "\n```", by simp [commentBody, String.append_assoc]⟩
  cases hf : env.reactions.find? (fun r => r.content == "eyes") with
  | none =>
    refine ⟨?_, ?_, hbody, ?_⟩ <;>
      simp [workflowRunHandler, hname, hevent, hconc, hactor, hstore, hpost,
        hf, storedTruthy, parsePackInfo, isCommentEffect, lookup_kvDelete]
  | some eyes =>
    refine ⟨?_, ?_, hbody, ?_⟩ <;>
      simp [workflowRunHandler, hname, hevent, hconc, hactor, hstore, hpost,
        hf, storedTruthy, parsePackInfo, isCommentEffect, lookup_kvDelete]

/-- C7: when posting the result comment fails, the failure is caught
locally and logged as an error and does not propagate; the correlation
record was already deleted before the attempt (the trace is exactly
get-authenticated, store get, store delete, then the comment attempt), so
the record stays deleted and no retry occurs. -/
theorem workflowRun_commentFailure_swallowed (env : WREnv)
    (p : WorkflowRunPayload) (info : PackInfo)
    (hname : p.name = "Publish dev")
    (hevent : p.event = "workflow_dispatch")
    (hconc : p.conclusion = some "success")
    (hactor : p.triggering_actor = some (env.appSlug ++ "[bot]"))
    (hstore : env.store.lookup ("pack-" ++ toString p.id) =
      some (StoredValue.json info))
    (hpost : env.commentPostFails = true) :
    (workflowRunHandler env p).effects =
      [Effect.getAuthenticated,
        Effect.storeGet ("pack-" ++ toString p.id),
        Effect.storeDelete ("pack-" ++ toString p.id),
        Effect.createComment p.repo_owner p.repo_name info.prNumber
          (commentBody info.tag)] ∧
    (workflowRunHandler env p).threw = false ∧
    (workflowRunHandler env p).loggedError = true ∧
    (workflowRunHandler env p).store.lookup ("pack-" ++ toString p.id) = none := by
  refine ⟨?_, ?_, ?_, ?_⟩ <;>
    simp [workflowRunHandler, hname, hevent, hconc, hactor, hstore, hpost,
      storedTruthy, parsePackInfo, lookup_kvDelete]

/-- C9 (amended): the stored record is parsed before the store delete is
issued: on a stored non-empty value that is not valid JSON, parsing
throws, the error propagates out of the handler, no comment is posted and
the record is not deleted (the trace stops at the store read).  A stored
empty string is excluded: it is falsy, so `if (!stored)` returns silently
before `JSON.parse` is reached (see the counterexample). -/
theorem workflowRun_invalidRecord_propagates (env : WREnv)
    (p : WorkflowRunPayload) (raw : String)
    (hname : p.name = "Publish dev")
    (hevent : p.event = "workflow_dispatch")
    (hconc : p.conclusion = some "success")
    (hactor : p.triggering_actor = some (env.appSlug ++ "[bot]"))
    (hstore : env.store.lookup ("pack-" ++ toString p.id) =
      some (StoredValue.invalid raw))
    (hraw : raw ≠ "") :
    (workflowRunHandler env p).threw = true ∧
    (workflowRunHandler env p).store = env.store ∧
    (workflowRunHandler env p).effects =
      [Effect.getAuthenticated, Effect.storeGet ("pack-" ++ toString p.id)] := by
  refine ⟨?_, ?_, ?_⟩ <;>
    simp [workflowRunHandler, hname, hevent, hconc, hactor, hstore,
      storedTruthy, hraw, parsePackInfo]

/-- C9 counterexample: at a stored empty string — a value that is not
valid JSON — the handler does not throw: `if (!stored)` is truthy-false
on the empty string, so the source logs and returns silently without ever
reaching `JSON.parse`, refuting the claim quantified over every non-JSON
stored value. -/
theorem workflowRun_emptyStored_silent :
    (workflowRunHandler
      ⟨"mybot", [("pack-7", StoredValue.invalid "")], [], false⟩
      ⟨"Publish dev", "workflow_dispatch", some "success", 7,
        some "mybot[bot]", "owner", "repo"⟩).threw = false ∧
    (workflowRunHandler
      ⟨"mybot", [("pack-7", StoredValue.invalid "")], [], false⟩
      ⟨"Publish dev", "workflow_dispatch", some "success", 7,
        some "mybot[bot]", "owner", "repo"⟩).effects =
      [Effect.getAuthenticated, Effect.storeGet "pack-7"] := by
  exact ⟨by decide, by decide⟩

end GithubBot

namespace GithubBot

/-- C5: a completion event whose workflow name differs from `Publish dev`,
or whose triggering actor differs from `<app-slug>[bot]` (even with
conclusion success and event `workflow_dispatch`), or whose event is not
`workflow_dispatch`, or whose conclusion is not success, posts no comment
and deletes no correlation record. -/
theorem workflowRun_gate_mismatch_frame (env : WREnv) (p : WorkflowRunPayload)
    (h : p.name ≠ "Publish dev" ∨ p.event ≠ "workflow_dispatch" ∨
      p.conclusion ≠ some "success" ∨
      p.triggering_actor ≠ some (env.appSlug ++ "[bot]")) :
    (workflowRunHandler env p).effects.filter isCommentEffect = [] ∧
    (workflowRunHandler env p).effects.filter isStoreDeleteEffect = [] ∧
    (workflowRunHandler env p).store = env.store := by
  by_cases hn : p.name = "Publish dev"
  · by_cases he : p.event = "workflow_dispatch"
    · by_cases hc : p.conclusion = some "success"
      · by_cases ha : p.triggering_actor = some (env.appSlug ++ "[bot]")
        · rcases h with h | h | h | h <;> exact absurd (by assumption) h
        · refine ⟨?_, ?_, ?_⟩ <;>
            simp [workflowRunHandler, hn, he, hc, ha, isCommentEffect,
              isStoreDeleteEffect]
      · refine ⟨?_, ?_, ?_⟩ <;> simp [workflowRunHandler, hn, he, hc]
    · refine ⟨?_, ?_, ?_⟩ <;> simp [workflowRunHandler, hn, he]
  · refine ⟨?_, ?_, ?_⟩ <;> simp [workflowRunHandler, hn]

/-- C6: a completion event delivered after its correlation record is gone
finds no record and performs no further action beyond the actor lookup and
the store read: no comment, no deletion, no reaction change, store
unchanged — redelivery is idempotent. -/
theorem workflowRun_redelivery_noop (env : WREnv) (p : WorkflowRunPayload)
    (hstore : env.store.lookup ("pack-" ++ toString p.id) = none) :
    (workflowRunHandler env p).store = env.store ∧
    (workflowRunHandler env p).threw = false ∧
    ∀ e ∈ (workflowRunHandler env p).effects,
      e = Effect.getAuthenticated ∨
        e = Effect.storeGet ("pack-" ++ toString p.id) := by
  by_cases hn : p.name = "Publish dev"
  · by_cases he : p.event = "workflow_dispatch"
    · by_cases hc : p.conclusion = some "success"
      · by_cases ha : p.triggering_actor = some (env.appSlug ++ "[bot]")
        · refine ⟨?_, ?_, ?_⟩ <;>
            simp [workflowRunHandler, hn, he, hc, ha, hstore]
        · refine ⟨?_, ?_, ?_⟩ <;> simp [workflowRunHandler, hn, he, hc, ha]
      · refine ⟨?_, ?_, ?_⟩ <;> simp [workflowRunHandler, hn, he, hc]
    · refine ⟨?_, ?_, ?_⟩ <;> simp [workflowRunHandler, hn, he]
  · refine ⟨?_, ?_, ?_⟩ <;> simp [workflowRunHandler, hn]

end GithubBot

namespace GithubBot

/-- Witness for C8 at a concrete comment without the trigger prefix. -/
theorem commentHandler_no_trigger_no_calls_witness :
    commentHandler ⟨"write", "sha", "success", [], [], []⟩
      ⟨"hello", some "alice", true, "open", 1, 2, "owner", "repo"⟩ = ⟨[], []⟩ :=
  commentHandler_no_trigger_no_calls
    ⟨"write", "sha", "success", [], [], []⟩
    ⟨"hello", some "alice", true, "open", 1, 2, "owner", "repo"⟩ (by decide)

/-- Witness for C4 at a concrete passing trigger and discovered run. -/
theorem commentHandler_correlation_record_witness :
    (∀ run,
      List.find? (fun r => r.event == "workflow_dispatch" && r.status != "completed")
          [(⟨7, "workflow_dispatch", "queued"⟩ : WorkflowRunItem)] = some run →
      (commentHandler ⟨"write", "sha", "success", [],
          [⟨7, "workflow_dispatch", "queued"⟩], []⟩
        ⟨"@discord-js-bot pack this please", some "alice", true, "open", 42, 2,
          "owner", "repo"⟩).effects.filter isStorePutEffect =
        [Effect.storePut ("pack-" ++ toString run.id)
          (StoredValue.json ⟨2, 42, "pr-" ++ toString 42, run.id⟩) 3600] ∧
      (commentHandler ⟨"write", "sha", "success", [],
          [⟨7, "workflow_dispatch", "queued"⟩], []⟩
        ⟨"@discord-js-bot pack this please", some "alice", true, "open", 42, 2,
          "owner", "repo"⟩).store.lookup ("pack-" ++ toString run.id) =
        some (StoredValue.json ⟨2, 42, "pr-" ++ toString 42, run.id⟩)) ∧
    (List.find? (fun r => r.event == "workflow_dispatch" && r.status != "completed")
        [(⟨7, "workflow_dispatch", "queued"⟩ : WorkflowRunItem)] = none →
      (commentHandler ⟨"write", "sha", "success", [],
          [⟨7, "workflow_dispatch", "queued"⟩], []⟩
        ⟨"@discord-js-bot pack this please", some "alice", true, "open", 42, 2,
          "owner", "repo"⟩).effects.filter isStorePutEffect = [] ∧
      (commentHandler ⟨"write", "sha", "success", [],
          [⟨7, "workflow_dispatch", "queued"⟩], []⟩
        ⟨"@discord-js-bot pack this please", some "alice", true, "open", 42, 2,
          "owner", "repo"⟩).store = []) :=
  commentHandler_correlation_record
    ⟨"write", "sha", "success", [], [⟨7, "workflow_dispatch", "queued"⟩], []⟩
    ⟨"@discord-js-bot pack this please", some "alice", true, "open", 42, 2,
      "owner", "repo"⟩
    "alice" (by decide) rfl rfl rfl (Or.inr rfl) (by decide)

end GithubBot

namespace GithubBot

/-- Witness for C2 at a concrete stored record and completion event. -/
theorem workflowRun_success_finalizes_witness :
    (workflowRunHandler
        ⟨"mybot", [("pack-7", StoredValue.json ⟨2, 42, "pr-42", 7⟩)],
          [⟨5, "eyes"⟩], false⟩
        ⟨"Publish dev", "workflow_dispatch", some "success", 7,
          some "mybot[bot]", "owner", "repo"⟩).store.lookup
      ("pack-" ++ toString 7) = none ∧
    (workflowRunHandler
        ⟨"mybot", [("pack-7", StoredValue.json ⟨2, 42, "pr-42", 7⟩)],
          [⟨5, "eyes"⟩], false⟩
        ⟨"Publish dev", "workflow_dispatch", some "success", 7,
          some "mybot[bot]", "owner", "repo"⟩).effects.filter isCommentEffect =
      [Effect.createComment "owner" "repo" 42 (commentBody "pr-42")] ∧
    (∃ pre post, commentBody "pr-42" = pre ++ ("pr-42" ++ post)) ∧
    (∀ eyes,
      List.find? (fun r => r.content == "eyes") [(⟨5, "eyes"⟩ : Reaction)] =
        some eyes →
      Effect.deleteReaction "owner" "repo" eyes.id 2 ∈
        (workflowRunHandler
          ⟨"mybot", [("pack-7", StoredValue.json ⟨2, 42, "pr-42", 7⟩)],
            [⟨5, "eyes"⟩], false⟩
          ⟨"Publish dev", "workflow_dispatch", some "success", 7,
            some "mybot[bot]", "owner", "repo"⟩).effects) :=
  workflowRun_success_finalizes
    ⟨"mybot", [("pack-7", StoredValue.json ⟨2, 42, "pr-42", 7⟩)],
      [⟨5, "eyes"⟩], false⟩
    ⟨"Publish dev", "workflow_dispatch", some "success", 7,
      some "mybot[bot]", "owner", "repo"⟩
    ⟨2, 42, "pr-42", 7⟩ rfl rfl rfl (by decide) (by decide) rfl

/-- Witness for C7 at a concrete event whose comment post fails. -/
theorem workflowRun_commentFailure_swallowed_witness :
    (workflowRunHandler
        ⟨"mybot", [("pack-7", StoredValue.json ⟨2, 42, "pr-42", 7⟩)],
          [⟨5, "eyes"⟩], true⟩
        ⟨"Publish dev", "workflow_dispatch", some "success", 7,
          some "mybot[bot]", "owner", "repo"⟩).effects =
      [Effect.getAuthenticated,
        Effect.storeGet ("pack-" ++ toString 7),
        Effect.storeDelete ("pack-" ++ toString 7),
        Effect.createComment "owner" "repo" 42 (commentBody "pr-42")] ∧
    (workflowRunHandler
        ⟨"mybot", [("pack-7", StoredValue.json ⟨2, 42, "pr-42", 7⟩)],
          [⟨5, "eyes"⟩], true⟩
        ⟨"Publish dev", "workflow_dispatch", some "success", 7,
          some "mybot[bot]", "owner", "repo"⟩).threw = false ∧
    (workflowRunHandler
        ⟨"mybot", [("pack-7", StoredValue.json ⟨2, 42, "pr-42", 7⟩)],
          [⟨5, "eyes"⟩], true⟩
        ⟨"Publish dev", "workflow_dispatch", some "success", 7,
          some "mybot[bot]", "owner", "repo"⟩).loggedError = true ∧
    (workflowRunHandler
        ⟨"mybot", [("pack-7", StoredValue.json ⟨2, 42, "pr-42", 7⟩)],
          [⟨5, "eyes"⟩], true⟩
        ⟨"Publish dev", "workflow_dispatch", some "success", 7,
          some "mybot[bot]", "owner", "repo"⟩).store.lookup
      ("pack-" ++ toString 7) = none :=
  workflowRun_commentFailure_swallowed
    ⟨"mybot", [("pack-7", StoredValue.json ⟨2, 42, "pr-42", 7⟩)],
      [⟨5, "eyes"⟩], true⟩
    ⟨"Publish dev", "workflow_dispatch", some "success", 7,
      some "mybot[bot]", "owner", "repo"⟩
    ⟨2, 42, "pr-42", 7⟩ rfl rfl rfl (by decide) (by decide) rfl

/-- Witness for C9 at a concrete store holding a non-JSON value. -/
theorem workflowRun_invalidRecord_propagates_witness :
    (workflowRunHandler
        ⟨"mybot", [("pack-7", StoredValue.invalid "oops")], [], false⟩
        ⟨"Publish dev", "workflow_dispatch", some "success", 7,
          some "mybot[bot]", "owner", "repo"⟩).threw = true ∧
    (workflowRunHandler
        ⟨"mybot", [("pack-7", StoredValue.invalid "oops")], [], false⟩
        ⟨"Publish dev", "workflow_dispatch", some "success", 7,
          some "mybot[bot]", "owner", "repo"⟩).store =
      [("pack-7", StoredValue.invalid "oops")] ∧
    (workflowRunHandler
        ⟨"mybot", [("pack-7", StoredValue.invalid "oops")], [], false⟩
        ⟨"Publish dev", "workflow_dispatch", some "success", 7,
          some "mybot[bot]", "owner", "repo"⟩).effects =
      [Effect.getAuthenticated, Effect.storeGet ("pack-" ++ toString 7)] :=
  workflowRun_invalidRecord_propagates
    ⟨"mybot", [("pack-7", StoredValue.invalid "oops")], [], false⟩
    ⟨"Publish dev", "workflow_dispatch", some "success", 7,
      some "mybot[bot]", "owner", "repo"⟩
    "oops" rfl rfl rfl (by decide) (by decide) (by decide)

/-- Witness for C5 at a concrete event with a mismatched workflow name. -/
theorem workflowRun_gate_mismatch_frame_witness :
    (workflowRunHandler ⟨"mybot", [], [], false⟩
        ⟨"Other workflow", "workflow_dispatch", some "success", 7,
          some "mybot[bot]", "owner", "repo"⟩).effects.filter
      isCommentEffect = [] ∧
    (workflowRunHandler ⟨"mybot", [], [], false⟩
        ⟨"Other workflow", "workflow_dispatch", some "success", 7,
          some "mybot[bot]", "owner", "repo"⟩).effects.filter
      isStoreDeleteEffect = [] ∧
    (workflowRunHandler ⟨"mybot", [], [], false⟩
        ⟨"Other workflow", "workflow_dispatch", some "success", 7,
          some "mybot[bot]", "owner", "repo"⟩).store = [] :=
  workflowRun_gate_mismatch_frame ⟨"mybot", [], [], false⟩
    ⟨"Other workflow", "workflow_dispatch", some "success", 7,
      some "mybot[bot]", "owner", "repo"⟩
    (Or.inl (by decide))

/-- Witness for C6 at a concrete event with an empty store. -/
theorem workflowRun_redelivery_noop_witness :
    (workflowRunHandler ⟨"mybot", [], [], false⟩
        ⟨"Publish dev", "workflow_dispatch", some "success", 7,
          some "mybot[bot]", "owner", "repo"⟩).store = [] ∧
    (workflowRunHandler ⟨"mybot", [], [], false⟩
        ⟨"Publish dev", "workflow_dispatch", some "success", 7,
          some "mybot[bot]", "owner", "repo"⟩).threw = false ∧
    ∀ e ∈ (workflowRunHandler ⟨"mybot", [], [], false⟩
        ⟨"Publish dev", "workflow_dispatch", some "success", 7,
          some "mybot[bot]", "owner", "repo"⟩).effects,
      e = Effect.getAuthenticated ∨
        e = Effect.storeGet ("pack-" ++ toString 7) :=
  workflowRun_redelivery_noop ⟨"mybot", [], [], false⟩
    ⟨"Publish dev", "workflow_dispatch", some "success", 7,
      some "mybot[bot]", "owner", "repo"⟩
    rfl

end GithubBot
